import Mathlib

/-!
A shallow embedding of the client-side OCPP 1.6 message engine found in
src/src/ocpp.c of the repository, together with theorems about its queue
discipline, retry policy, heartbeat synthesis, ingress routing and type
registry.  Machine integers are modelled as `Nat`/`Int` with explicit
`% 2^32` where the C code performs 32-bit arithmetic; `time_t` is `Int`.
The intrusive lists of the C code are modelled as lists of pool indices.
The transport, clock, configuration store and id generator are external
collaborators and enter as parameters (`Env`, `Config`).
-/

namespace Ocpp

/-- Number of slots in the fixed transmit pool (OCPP_TX_POOL_LEN, ocpp.c line 25). -/
def OCPP_TX_POOL_LEN : Nat := 8

/-- Default number of send attempts before a droppable message is dropped
(OCPP_DEFAULT_TX_RETRIES, ocpp.c line 28). -/
def OCPP_DEFAULT_TX_RETRIES : Nat := 1

/-- Transport-level retry timeout in seconds (OCPP_DEFAULT_TX_TIMEOUT_SEC, ocpp.h line 27). -/
def OCPP_DEFAULT_TX_TIMEOUT_SEC : Nat := 10

/-- Modelled from the spec: OCPP_MESSAGE_ID_MAXLEN is defined in include/ocpp/type.h,
which is not under src/.  Spec section 3 says the id is fixed-width,
OCPP_MESSAGE_ID_MAXLEN bytes including the terminator, and section 8 speaks of
20-char ids, so the width is 21.  No theorem below depends on the exact value. -/
def OCPP_MESSAGE_ID_MAXLEN : Nat := 21

/-- The modulus of uint32 arithmetic. -/
def U32 : Nat := 4294967296

/-- errno values used by the engine (Linux numbering). -/
def ENOMEM : Int := 12

def EBUSY : Int := 16

def EINVAL : Int := 22

def ENOMSG : Int := 42

def ENOLINK : Int := 67

/-- Event kinds of `enum ocpp_event` (ocpp.h lines 30-35); the C code also
passes negative errno values through the same callback parameter. -/
def OCPP_EVENT_MESSAGE_INCOMING : Int := 0

def OCPP_EVENT_MESSAGE_OUTGOING : Int := 1

def OCPP_EVENT_MESSAGE_FREE : Int := 2

/-- Modelled from the spec: the `ocpp_message_t` enum lives in include/ocpp/type.h,
which is not under src/.  The 39 actions and their order are taken from the
designated-initializer table `get_typestr_array` in ocpp.c (lines 530-579),
which the spec's section 6 action list mirrors; `OCPP_MSG_MAX` is the sentinel. -/
def OCPP_MSG_AUTHORIZE : Nat := 0

def OCPP_MSG_BOOTNOTIFICATION : Nat := 1

def OCPP_MSG_CHANGE_AVAILABILITY : Nat := 2

def OCPP_MSG_CHANGE_CONFIGURATION : Nat := 3

def OCPP_MSG_CLEAR_CACHE : Nat := 4

def OCPP_MSG_DATA_TRANSFER : Nat := 5

def OCPP_MSG_GET_CONFIGURATION : Nat := 6

def OCPP_MSG_HEARTBEAT : Nat := 7

def OCPP_MSG_METER_VALUES : Nat := 8

def OCPP_MSG_REMOTE_START_TRANSACTION : Nat := 9

def OCPP_MSG_REMOTE_STOP_TRANSACTION : Nat := 10

def OCPP_MSG_RESET : Nat := 11

def OCPP_MSG_START_TRANSACTION : Nat := 12

def OCPP_MSG_STATUS_NOTIFICATION : Nat := 13

def OCPP_MSG_STOP_TRANSACTION : Nat := 14

def OCPP_MSG_UNLOCK_CONNECTOR : Nat := 15

def OCPP_MSG_DIAGNOSTICS_NOTIFICATION : Nat := 16

def OCPP_MSG_FIRMWARE_NOTIFICATION : Nat := 17

def OCPP_MSG_GET_DIAGNOSTICS : Nat := 18

def OCPP_MSG_UPDATE_FIRMWARE : Nat := 19

def OCPP_MSG_GET_LOCAL_LIST_VERSION : Nat := 20

def OCPP_MSG_SEND_LOCAL_LIST : Nat := 21

def OCPP_MSG_CANCEL_RESERVATION : Nat := 22

def OCPP_MSG_RESERVE_NOW : Nat := 23

def OCPP_MSG_CLEAR_CHARGING_PROFILE : Nat := 24

def OCPP_MSG_GET_COMPOSITE_SCHEDULE : Nat := 25

def OCPP_MSG_SET_CHARGING_PROFILE : Nat := 26

def OCPP_MSG_TRIGGER_MESSAGE : Nat := 27

def OCPP_MSG_CERTIFICATE_SIGNED : Nat := 28

def OCPP_MSG_DELETE_CERTIFICATE : Nat := 29

def OCPP_MSG_EXTENDED_TRIGGER_MESSAGE : Nat := 30

def OCPP_MSG_GET_INSTALLED_CERTIFICATE_IDS : Nat := 31

def OCPP_MSG_GET_LOG : Nat := 32

def OCPP_MSG_INSTALL_CERTIFICATE : Nat := 33

def OCPP_MSG_LOG_STATUS_NOTIFICATION : Nat := 34

def OCPP_MSG_SECURITY_EVENT_NOTIFICATION : Nat := 35

def OCPP_MSG_SIGN_CERTIFICATE : Nat := 36

def OCPP_MSG_SIGNED_FIRMWARE_STATUS_NOTIFICATION : Nat := 37

def OCPP_MSG_SIGNED_UPDATE_FIRMWARE : Nat := 38

/-- The sentinel value for unknown message types. -/
def OCPP_MSG_MAX : Nat := 39

/-- Message roles (`ocpp_message_role_t`); NONE is the zero value used for free
pool slots, ALLOC the transient state set by `alloc_message`. -/
inductive Role where
  | NONE
  | ALLOC
  | CALL
  | CALLRESULT
  | CALLERROR
deriving DecidableEq, Repr

/-- `struct ocpp_message` (ocpp.h lines 41-54): the wire-visible part of a slot.
The payload is an opaque (pointer, size) pair owned by the caller. -/
structure OcppMessage where
  id : List Nat
  role : Role
  type : Nat
  payload : Nat × Nat
deriving DecidableEq, Repr

/-- `struct message` (ocpp.c lines 34-39): a pool slot wrapping the body with
the retry deadline and the attempt counter (a uint32 in the C code). -/
structure Message where
  body : OcppMessage
  expiry : Int
  attempts : Nat
deriving DecidableEq, Repr

/-- The all-zero `struct ocpp_message`, as produced by `memset(.., 0, ..)`. -/
def zeroOcppMessage : OcppMessage :=
  { id := List.replicate OCPP_MESSAGE_ID_MAXLEN 0
    role := Role.NONE
    type := 0
    payload := (0, 0) }

/-- The all-zero `struct message`. -/
def zeroMessage : Message :=
  { body := zeroOcppMessage, expiry := 0, attempts := 0 }

/-- The configuration keys the engine reads through `ocpp_get_configuration`;
the store itself is an external collaborator (spec section 6), so the values
enter as parameters.  Each field stands for a uint32 value. -/
structure Config where
  heartbeatInterval : Nat
  transactionMessageAttempts : Nat
  transactionMessageRetryInterval : Nat

/-- The engine state: the static singleton `m` of ocpp.c.  The three intrusive
lists are modelled as lists of pool indices (head of the list = head of the
C list).  `events` is the trace of `dispatch_event` invocations (kind, message)
and `sendLog` the trace of `ocpp_send` invocations paired with the length of
the wait queue at the moment of the call; both are observation traces of the
external callouts, not extra C state. -/
structure EngineState where
  pool : List Message
  ready : List Nat
  wait : List Nat
  timer : List Nat
  txTimestamp : Int
  rxTimestamp : Int
  events : List (Int × OcppMessage)
  sendLog : List (OcppMessage × Nat)
deriving DecidableEq, Repr

/-- One step's view of the external collaborators: the clock, the configuration
store, the transport send result per message, the transport receive outcome and
the generated message id. -/
structure Env where
  now : Int
  cfg : Config
  sendResult : OcppMessage → Int
  recvErr : Int
  recvMsg : OcppMessage
  genId : List Nat

/-- Read pool slot `i` (pointer dereference in the C code). -/
def getMsg (st : EngineState) (i : Nat) : Message :=
  st.pool.getD i zeroMessage

/-- Write pool slot `i`. -/
def setMsg (i : Nat) (msg : Message) (st : EngineState) : EngineState :=
  { st with pool := st.pool.set i msg }

/-- `put_msg_ready`: `add_last_to_list` onto the ready list (tail insert). -/
def put_msg_ready (i : Nat) (st : EngineState) : EngineState :=
  { st with ready := st.ready ++ [i] }

/-- `put_msg_ready_infront`: the source's `add_first_to_list` (ocpp.c lines 66-69)
calls `list_add_tail`, so despite its name this is also a tail insert. -/
def put_msg_ready_infront (i : Nat) (st : EngineState) : EngineState :=
  { st with ready := st.ready ++ [i] }

/-- `put_msg_wait`: tail insert onto the wait list. -/
def put_msg_wait (i : Nat) (st : EngineState) : EngineState :=
  { st with wait := st.wait ++ [i] }

/-- `put_msg_timer`: tail insert onto the timer list. -/
def put_msg_timer (i : Nat) (st : EngineState) : EngineState :=
  { st with timer := st.timer ++ [i] }

/-- `del_msg_ready`: unlink from the ready list. -/
def del_msg_ready (i : Nat) (st : EngineState) : EngineState :=
  { st with ready := st.ready.erase i }

/-- `del_msg_wait`: unlink from the wait list. -/
def del_msg_wait (i : Nat) (st : EngineState) : EngineState :=
  { st with wait := st.wait.erase i }

/-- `del_msg_timer`: unlink from the timer list. -/
def del_msg_timer (i : Nat) (st : EngineState) : EngineState :=
  { st with timer := st.timer.erase i }

/-- `count_messages_waiting` (ocpp.c line 119). -/
def count_messages_waiting (st : EngineState) : Nat :=
  st.wait.length

/-- `count_messages_ticking` (ocpp.c line 124). -/
def count_messages_ticking (st : EngineState) : Nat :=
  st.timer.length

/-- `count_messages_ready` (ocpp.c line 129). -/
def count_messages_ready (st : EngineState) : Nat :=
  st.ready.length

/-- `update_last_tx_timestamp`. -/
def update_last_tx_timestamp (now : Int) (st : EngineState) : EngineState :=
  { st with txTimestamp := now }

/-- `update_last_rx_timestamp`. -/
def update_last_rx_timestamp (now : Int) (st : EngineState) : EngineState :=
  { st with rxTimestamp := now }

/-- `dispatch_event`: the application callback invocation, recorded in the
event trace.  The callback is an external collaborator; the cooperative model
records the call. -/
def dispatch_event (k : Int) (b : OcppMessage) (st : EngineState) : EngineState :=
  { st with events := st.events ++ [(k, b)] }

/-- Record of one `ocpp_send` invocation: the message body handed to the
transport together with the number of waiting messages at the moment of the
call (an observation, used to state the serialization property). -/
def logSend (b : OcppMessage) (st : EngineState) : EngineState :=
  { st with sendLog := st.sendLog ++ [(b, st.wait.length)] }

/-- `alloc_message` (ocpp.c lines 156-169): linear scan for the first slot with
role NONE; mark it ALLOC. -/
def alloc_message (st : EngineState) : Option (Nat × EngineState) :=
  match st.pool.findIdx? (fun m => m.body.role == Role.NONE) with
  | none => none
  | some i =>
      let msg := getMsg st i
      some (i, setMsg i { msg with body := { msg.body with role := Role.ALLOC } } st)

/-- `free_message` (ocpp.c lines 171-175): emit the MESSAGE_FREE event with the
current body, then zero the slot. -/
def free_message (i : Nat) (st : EngineState) : EngineState :=
  setMsg i zeroMessage (dispatch_event OCPP_EVENT_MESSAGE_FREE (getMsg st i).body st)

/-- `new_message` (ocpp.c lines 177-199): allocate and initialize a slot.  With
an id the role is CALLERROR/CALLRESULT and the id is copied from the request;
without, the role is CALL and the id is generated (`gen`, external RNG). -/
def new_message (rid : Option (List Nat)) (type : Nat) (err : Bool) (gen : List Nat)
    (st : EngineState) : Option (Nat × EngineState) :=
  match alloc_message st with
  | none => none
  | some (i, st1) =>
      let msg := getMsg st1 i
      let msg :=
        match rid with
        | some r =>
            { msg with
              attempts := 0
              body := { msg.body with
                        type := type
                        id := r
                        role := if err then Role.CALLERROR else Role.CALLRESULT } }
        | none =>
            { msg with
              attempts := 0
              body := { msg.body with type := type, id := gen, role := Role.CALL } }
      some (i, setMsg i msg st1)

/-- The length of a C string stored in a byte array: bytes before the first 0. -/
def strlenBytes (l : List Nat) : Nat :=
  (l.takeWhile (fun c => c != 0)).length

/-- `memcmp(a, b, n) == 0`: the first `n` bytes agree. -/
def memcmpEq (a b : List Nat) (n : Nat) : Bool :=
  a.take n == b.take n

/-- `find_msg_by_idstr` (ocpp.c lines 201-214): first slot in the list whose id
agrees with `msgid` on the first `strlen(msgid)` bytes. -/
def find_msg_by_idstr (st : EngineState) : List Nat → List Nat → Option Nat
  | [], _ => none
  | i :: rest, msgid =>
      if memcmpEq msgid (getMsg st i).body.id (strlenBytes msgid) then some i
      else find_msg_by_idstr st rest msgid

/-- `is_transaction_related` (ocpp.c lines 216-226). -/
def is_transaction_related (msg : Message) : Bool :=
  msg.body.type == OCPP_MSG_START_TRANSACTION ||
    msg.body.type == OCPP_MSG_STOP_TRANSACTION ||
    msg.body.type == OCPP_MSG_METER_VALUES

/-- `is_droppable` (ocpp.c lines 228-233): never drop BootNotification and
transaction-related messages. -/
def is_droppable (msg : Message) : Bool :=
  !is_transaction_related msg && msg.body.type != OCPP_MSG_BOOTNOTIFICATION

/-- `should_drop` (ocpp.c lines 235-248). -/
def should_drop (msg : Message) : Bool :=
  if !is_droppable msg then false
  else if msg.attempts < OCPP_DEFAULT_TX_RETRIES then false
  else true

/-- `should_send_heartbeat` (ocpp.c lines 250-264).  `elapsed` is the uint32
cast of `now - m.tx.timestamp`; only the TX timestamp is consulted. -/
def should_send_heartbeat (cfg : Config) (now : Int) (st : EngineState) : Bool :=
  let interval := cfg.heartbeatInterval
  let disabled := interval = 0
  let elapsed : Nat := ((now - st.txTimestamp) % (U32 : Int)).toNat
  if disabled ∨ elapsed < interval ∨ 0 < count_messages_ready st ∨
      0 < count_messages_waiting st then false
  else true

/-- `get_retry_interval` (ocpp.c lines 267-271): flat transport retry deadline. -/
def get_retry_interval (_msg : Message) (now : Int) : Int :=
  now + (OCPP_DEFAULT_TX_TIMEOUT_SEC : Int)

/-- `get_next_period` (ocpp.c lines 275-290): application-level retry deadline.
The uint32 multiplication `interval * msg->attempts` wraps modulo 2^32. -/
def get_next_period (cfg : Config) (msg : Message) (now : Int) : Int :=
  let interval : Nat :=
    if is_transaction_related msg then
      (cfg.transactionMessageRetryInterval * msg.attempts) % U32
    else if msg.body.type = OCPP_MSG_BOOTNOTIFICATION ∨ msg.body.type = OCPP_MSG_HEARTBEAT then
      cfg.heartbeatInterval
    else OCPP_DEFAULT_TX_TIMEOUT_SEC
  now + (interval : Int)

/-- `update_message_expiry` (ocpp.c lines 292-295). -/
def update_message_expiry (cfg : Config) (msg : Message) (now : Int) : Message :=
  { msg with expiry := get_next_period cfg msg now }

/-- `send_message` (ocpp.c lines 297-324): bump the attempt counter (uint32),
set the transport retry deadline, unlink from ready, hand the body to the
transport, then route the slot by outcome and role. -/
def send_message (env : Env) (i : Nat) (st : EngineState) : EngineState :=
  let msg0 := getMsg st i
  let msg := { msg0 with attempts := (msg0.attempts + 1) % U32,
                         expiry := get_retry_interval msg0 env.now }
  let st1 := logSend msg.body (del_msg_ready i (setMsg i msg st))
  if env.sendResult msg.body = 0 then
    if msg.body.role = Role.CALL then put_msg_wait i st1
    else free_message i st1
  else
    if msg.attempts < OCPP_DEFAULT_TX_RETRIES ∨ is_transaction_related msg = true ∨
        msg.body.type = OCPP_MSG_BOOTNOTIFICATION then put_msg_wait i st1
    else free_message i st1

/-- The wait-queue timeout sweep loop of `process_tx_timeout` (ocpp.c lines
326-349), iterating over a snapshot of the wait list (`list_for_each_safe`). -/
def wait_sweep (now : Int) : List Nat → EngineState → EngineState
  | [], st => st
  | i :: rest, st =>
      let msg := getMsg st i
      if now < msg.expiry then wait_sweep now rest st
      else
        let st1 := del_msg_wait i st
        if should_drop msg then wait_sweep now rest (free_message i st1)
        else wait_sweep now rest (put_msg_ready_infront i st1)

/-- `process_tx_timeout` (ocpp.c lines 326-349). -/
def process_tx_timeout (now : Int) (st : EngineState) : EngineState :=
  wait_sweep now st.wait st

/-- `process_queued_messages` (ocpp.c lines 351-373): sweep the wait queue,
refuse to send while a message is waiting for a response, else send the head
of the ready list (one by one). -/
def process_queued_messages (env : Env) (st : EngineState) : Int × EngineState :=
  let st1 := process_tx_timeout env.now st
  if 0 < count_messages_waiting st1 then (-EBUSY, st1)
  else
    match st1.ready with
    | [] => (0, st1)
    | i :: _ => (0, send_message env i st1)

/-- `process_periodic_messages` (ocpp.c lines 375-389): synthesize a Heartbeat
CALL when idle, push it to the ready tail and immediately drain. -/
def process_periodic_messages (env : Env) (st : EngineState) : Int × EngineState :=
  if should_send_heartbeat env.cfg env.now st then
    match new_message none OCPP_MSG_HEARTBEAT false env.genId st with
    | none => (-ENOMEM, st)
    | some (i, st1) => (0, (process_queued_messages env (put_msg_ready i st1)).2)
  else (0, st)

/-- The timer-promotion loop of `process_timer_messages` (ocpp.c lines 400-408). -/
def timer_promote (now : Int) : List Nat → EngineState → EngineState
  | [], st => st
  | i :: rest, st =>
      let msg := getMsg st i
      if now < msg.expiry then timer_promote now rest st
      else timer_promote now rest (put_msg_ready i (del_msg_timer i st))

/-- `process_timer_messages` (ocpp.c lines 391-411). -/
def process_timer_messages (now : Int) (st : EngineState) : EngineState :=
  if count_messages_ticking st ≤ 0 then st
  else timer_promote now st.timer st

/-- `process_central_response` (ocpp.c lines 418-443): unlink the matched
request from wait; a CALLERROR on a transaction-related message below the
configured attempt bound is re-queued in wait with a backed-off expiry
(without being re-sent), anything else is freed. -/
def process_central_response (cfg : Config) (received : OcppMessage) (i : Nat)
    (now : Int) (st : EngineState) : EngineState :=
  let st1 := del_msg_wait i st
  let req := getMsg st1 i
  if received.role = Role.CALLERROR ∧ is_transaction_related req = true then
    if req.attempts < cfg.transactionMessageAttempts then
      put_msg_wait i (setMsg i (update_message_expiry cfg req now) st1)
    else free_message i st1
  else free_message i st1

/-- `process_incoming_messages` (ocpp.c lines 445-489): poll the transport for
one frame and route it by role; at the end every outcome other than -ENOMSG is
dispatched to the application with the (possibly zero) error as the event kind,
and a non-negative outcome also updates the RX timestamp. -/
def process_incoming_messages (env : Env) (st : EngineState) : Int × EngineState :=
  let received := if env.recvErr = 0 then env.recvMsg else zeroOcppMessage
  let r : Int × EngineState :=
    if env.recvErr ≠ 0 then (env.recvErr, st)
    else
      match received.role with
      | Role.CALL => (0, st)
      | Role.CALLRESULT | Role.CALLERROR =>
          (match find_msg_by_idstr st st.wait received.id with
           | none => (-ENOLINK, st)
           | some i =>
               (0, update_last_tx_timestamp env.now
                     (process_central_response env.cfg received i env.now st)))
      | _ => (-EINVAL, st)
  if r.1 = -ENOMSG then r
  else
    let st2 := if 0 ≤ r.1 then update_last_rx_timestamp env.now r.2 else r.2
    (r.1, dispatch_event r.1 received st2)

/-- `push_message` (ocpp.c lines 491-507). -/
def push_message (rid : Option (List Nat)) (type : Nat) (payload : Nat × Nat)
    (timer : Int) (f : Nat → EngineState → EngineState) (err : Bool)
    (gen : List Nat) (st : EngineState) : Int × EngineState :=
  match new_message rid type err gen st with
  | none => (-ENOMEM, st)
  | some (i, st1) =>
      let msg := getMsg st1 i
      let st2 := setMsg i
        { msg with expiry := timer, body := { msg.body with payload := payload } } st1
      (0, f i st2)

/-- The eviction loop of `remove_oldest` (ocpp.c lines 509-528): free the first
ready slot whose type is not BootNotification, StartTransaction or
StopTransaction. -/
def remove_oldest_go : List Nat → EngineState → Int × EngineState
  | [], st => (-ENOMEM, st)
  | i :: rest, st =>
      let msg := getMsg st i
      if msg.body.type ≠ OCPP_MSG_BOOTNOTIFICATION ∧
          msg.body.type ≠ OCPP_MSG_START_TRANSACTION ∧
          msg.body.type ≠ OCPP_MSG_STOP_TRANSACTION then
        (0, free_message i (del_msg_ready i st))
      else remove_oldest_go rest st

/-- `remove_oldest` (ocpp.c lines 509-528). -/
def remove_oldest (st : EngineState) : Int × EngineState :=
  remove_oldest_go st.ready st

/-- `ocpp_push_request` (ocpp.c lines 632-651): push a CALL to the ready tail;
if the pool is full and `force` is set, evict the oldest eligible ready slot
and retry once.  `g1`, `g2` are the ids the external generator would produce. -/
def ocpp_push_request (type : Nat) (payload : Nat × Nat) (force : Bool)
    (g1 g2 : List Nat) (st : EngineState) : Int × EngineState :=
  let r := push_message none type payload 0 put_msg_ready false g1 st
  if r.1 ≠ 0 ∧ force = true then
    push_message none type payload 0 put_msg_ready false g2 (remove_oldest r.2).2
  else r

/-- `ocpp_push_request_defer` (ocpp.c lines 653-671): expiry is now + timer_sec;
target list is timer, or ready when `timer_sec` is 0. -/
def ocpp_push_request_defer (type : Nat) (payload : Nat × Nat) (timer_sec : Nat)
    (now : Int) (g : List Nat) (st : EngineState) : Int × EngineState :=
  if timer_sec = 0 then
    push_message none type payload (now + (timer_sec : Int)) put_msg_ready false g st
  else
    push_message none type payload (now + (timer_sec : Int)) put_msg_timer false g st

/-- `ocpp_push_response` (ocpp.c lines 673-686). -/
def ocpp_push_response (req : OcppMessage) (payload : Nat × Nat) (err : Bool)
    (st : EngineState) : Int × EngineState :=
  push_message (some req.id) req.type payload 0 put_msg_ready err [] st

/-- `ocpp_step` (ocpp.c lines 688-702). -/
def ocpp_step (env : Env) (st : EngineState) : EngineState :=
  let st1 := (process_queued_messages env st).2
  let st2 := (process_incoming_messages env st1).2
  let st3 := (process_periodic_messages env st2).2
  process_timer_messages env.now st3

/-- `ocpp_init` (ocpp.c lines 704-723): zero the state and stamp both
timestamps with the current time. -/
def ocpp_init (now : Int) : EngineState :=
  { pool := List.replicate OCPP_TX_POOL_LEN zeroMessage
    ready := []
    wait := []
    timer := []
    txTimestamp := now
    rxTimestamp := now
    events := []
    sendLog := [] }

/-- `ocpp_count_pending_requests` (ocpp.c lines 617-630). -/
def ocpp_count_pending_requests (st : EngineState) : Nat :=
  count_messages_ready st + count_messages_waiting st + count_messages_ticking st

/-- `ocpp_get_type_from_idstr` (ocpp.c lines 600-615). -/
def ocpp_get_type_from_idstr (st : EngineState) (idstr : List Nat) : Nat :=
  match find_msg_by_idstr st st.wait idstr with
  | none => OCPP_MSG_MAX
  | some i => (getMsg st i).body.type

/-- The action-name table of `get_typestr_array` (ocpp.c lines 530-579), in
enum order. -/
def ocpp_typestr_table : List String :=
  ["Authorize", "BootNotification", "ChangeAvailability", "ChangeConfiguration",
   "ClearCache", "DataTransfer", "GetConfiguration", "Heartbeat", "MeterValues",
   "RemoteStartTransaction", "RemoteStopTransaction", "Reset", "StartTransaction",
   "StatusNotification", "StopTransaction", "UnlockConnector",
   "DiagnosticsStatusNotification", "FirmwareStatusNotification", "GetDiagnostics",
   "UpdateFirmware", "GetLocalListVersion", "SendLocalList", "CancelReservation",
   "ReserveNow", "ClearChargingProfile", "GetCompositeSchedule",
   "SetChargingProfile", "TriggerMessage", "CertificateSigned",
   "DeleteCertificate", "ExtendedTriggerMessage", "GetInstalledCertificateIds",
   "GetLog", "InstallCertificate", "LogStatusNotification",
   "SecurityEventNotification", "SignCertificate",
   "SignedFirmwareStatusNotification", "SignedUpdateFirmware"]

/-- `ocpp_stringify_type` (ocpp.c lines 581-585). -/
def ocpp_stringify_type (t : Nat) : String :=
  if OCPP_MSG_MAX ≤ t then "UnknownMessage"
  else ocpp_typestr_table.getD t ""

/-- `ocpp_get_type_from_string` (ocpp.c lines 587-598): linear scan of the
table; unknown names resolve to the sentinel. -/
def ocpp_get_type_from_string (s : String) : Nat :=
  match ocpp_typestr_table.findIdx? (fun n => n == s) with
  | none => OCPP_MSG_MAX
  | some i => i

/-- Modelled from the spec: `ocpp_save_snapshot`, `ocpp_restore_snapshot` and
`ocpp_compute_snapshot_size` are declared in include/ocpp/ocpp.h (lines
159-180) but implemented outside src/.  Per spec sections 4.5 and 6 a snapshot
is an opaque serialization of the pool and queue state that begins with a
validation header (magic, version, state size). -/
structure Snapshot where
  magic : Nat
  version : Nat
  size : Nat
  pool : List Message
  ready : List Nat
  wait : List Nat
  timer : List Nat
deriving DecidableEq

/-- Modelled from the spec: the snapshot validation magic. -/
def OCPP_SNAPSHOT_MAGIC : Nat := 1329808464

/-- Modelled from the spec: serialize the pool and queue state behind a header. -/
def ocpp_save_snapshot (st : EngineState) : Snapshot :=
  { magic := OCPP_SNAPSHOT_MAGIC
    version := 1
    size := st.pool.length
    pool := st.pool
    ready := st.ready
    wait := st.wait
    timer := st.timer }

/-- Modelled from the spec: validate the header and rebuild a fresh engine
(restore subsumes init, ocpp.h line 175) carrying the saved pool and queues. -/
def ocpp_restore_snapshot (snap : Snapshot) (now : Int) : Option EngineState :=
  if snap.magic = OCPP_SNAPSHOT_MAGIC ∧ snap.version = 1 ∧
      snap.size = snap.pool.length then
    some { ocpp_init now with
           pool := snap.pool, ready := snap.ready, wait := snap.wait,
           timer := snap.timer }
  else none

/-- The persisted per-slot observables named by the snapshot round-trip law:
(id, type, role, attempts, expiry). -/
def slotTuple (msg : Message) : List Nat × Nat × Role × Nat × Int :=
  (msg.body.id, msg.body.type, msg.body.role, msg.attempts, msg.expiry)

/-- States reachable from `ocpp_init` through the public API and `ocpp_step`,
for arbitrary behavior of the external collaborators. -/
inductive Reachable : EngineState → Prop where
  | init (now : Int) : Reachable (ocpp_init now)
  | step (env : Env) {st : EngineState} :
      Reachable st → Reachable (ocpp_step env st)
  | pushRequest (type : Nat) (payload : Nat × Nat) (force : Bool)
      (g1 g2 : List Nat) {st : EngineState} :
      Reachable st → Reachable (ocpp_push_request type payload force g1 g2 st).2
  | pushRequestDefer (type : Nat) (payload : Nat × Nat) (timer_sec : Nat)
      (now : Int) (g : List Nat) {st : EngineState} :
      Reachable st → Reachable (ocpp_push_request_defer type payload timer_sec now g st).2
  | pushResponse (req : OcppMessage) (payload : Nat × Nat) (err : Bool)
      {st : EngineState} :
      Reachable st → Reachable (ocpp_push_response req payload err st).2


/-! Concrete scenario states used below.  All are built through the public
API from `ocpp_init`, with explicit external behavior. -/

/-- A generated 20-char message id followed by the terminator. -/
def sampleId : List Nat := List.replicate 20 97 ++ [0]

/-- A second generated id. -/
def sampleId2 : List Nat := List.replicate 20 98 ++ [0]

/-- A configuration with heartbeats disabled. -/
def quietCfg : Config :=
  { heartbeatInterval := 0
    transactionMessageAttempts := 3
    transactionMessageRetryInterval := 5 }

/-- A configuration with a 10-second heartbeat interval. -/
def hbCfg : Config :=
  { heartbeatInterval := 10
    transactionMessageAttempts := 3
    transactionMessageRetryInterval := 5 }

/-- A step environment in which the transport send fails and no frame arrives. -/
def envSendFail (t : Int) : Env :=
  { now := t, cfg := quietCfg, sendResult := fun _ => -1, recvErr := -ENOMSG,
    recvMsg := zeroOcppMessage, genId := sampleId }

/-- A step environment in which the transport send succeeds and no frame arrives. -/
def envSendOk (t : Int) : Env :=
  { now := t, cfg := quietCfg, sendResult := fun _ => 0, recvErr := -ENOMSG,
    recvMsg := zeroOcppMessage, genId := sampleId }

/-- A BootNotification pushed onto a fresh engine. -/
def bootPushState : EngineState :=
  (ocpp_push_request OCPP_MSG_BOOTNOTIFICATION (0, 0) false sampleId sampleId
    (ocpp_init 0)).2

/-- After one step with a failing transport the BootNotification sits in Wait
with attempts 1 and expiry 10. -/
def bootWaitState : EngineState :=
  ocpp_step (envSendFail 0) bootPushState

/-- A fresh DataTransfer pushed to Ready while the BootNotification waits. -/
def bootRetryProbeState : EngineState :=
  (ocpp_push_request OCPP_MSG_DATA_TRANSFER (0, 0) false sampleId2 sampleId2
    bootWaitState).2

/-- Push one MeterValues request (without force). -/
def pushMeter (st : EngineState) : EngineState :=
  (ocpp_push_request OCPP_MSG_METER_VALUES (0, 0) false sampleId sampleId st).2

/-- A fresh engine whose 8-slot pool is filled with MeterValues requests. -/
def meterPoolState : EngineState :=
  pushMeter (pushMeter (pushMeter (pushMeter (pushMeter (pushMeter
    (pushMeter (pushMeter (ocpp_init 0))))))))

/-- A forced DataTransfer push onto the full MeterValues pool. -/
def meterEvictedState : EngineState :=
  (ocpp_push_request OCPP_MSG_DATA_TRANSFER (0, 0) true sampleId2 sampleId2
    meterPoolState).2

/-- Push one deferred DataTransfer with a 1000-second timer at time 0. -/
def pushDeferDT (st : EngineState) : EngineState :=
  (ocpp_push_request_defer OCPP_MSG_DATA_TRANSFER (0, 0) 1000 0 sampleId st).2

/-- A fresh engine whose 8-slot pool is exhausted by deferred (Timer) entries;
Ready and Wait are both empty. -/
def timerFullState : EngineState :=
  pushDeferDT (pushDeferDT (pushDeferDT (pushDeferDT (pushDeferDT (pushDeferDT
    (pushDeferDT (pushDeferDT (ocpp_init 0))))))))

/-- A step environment at time 100 with heartbeats every 10 seconds. -/
def hbEnv : Env :=
  { now := 100, cfg := hbCfg, sendResult := fun _ => 0, recvErr := -ENOMSG,
    recvMsg := zeroOcppMessage, genId := sampleId }

/-- A DataTransfer pushed onto a fresh engine. -/
def dtPushState : EngineState :=
  (ocpp_push_request OCPP_MSG_DATA_TRANSFER (0, 0) false sampleId sampleId
    (ocpp_init 0)).2

/-- After one step with a working transport the DataTransfer CALL waits for
its response. -/
def dtWaitState : EngineState :=
  ocpp_step (envSendOk 0) dtPushState

/-- A CALLRESULT frame answering the waiting DataTransfer. -/
def dtResultMsg : OcppMessage :=
  { id := sampleId, role := Role.CALLRESULT, type := OCPP_MSG_DATA_TRANSFER,
    payload := (0, 0) }

/-- A step environment delivering `dtResultMsg`. -/
def dtResultEnv : Env :=
  { now := 1, cfg := quietCfg, sendResult := fun _ => 0, recvErr := 0,
    recvMsg := dtResultMsg, genId := sampleId2 }

/-- A StartTransaction pushed onto a fresh engine. -/
def stxPushState : EngineState :=
  (ocpp_push_request OCPP_MSG_START_TRANSACTION (0, 0) false sampleId sampleId
    (ocpp_init 0)).2

/-- After one step with a working transport the StartTransaction CALL waits. -/
def stxWaitState : EngineState :=
  ocpp_step (envSendOk 0) stxPushState

/-- A CALLERROR frame answering the waiting StartTransaction. -/
def stxErrorMsg : OcppMessage :=
  { id := sampleId, role := Role.CALLERROR, type := OCPP_MSG_START_TRANSACTION,
    payload := (0, 0) }

/-- A slot id whose stored text is "abc". -/
def storedIdAbc : List Nat := [97, 98, 99] ++ List.replicate 18 0

/-- An incoming id whose text is "ab": a strict prefix of the stored id. -/
def incomingIdAb : List Nat := [97, 98] ++ List.replicate 19 0

/-- An engine whose single Wait slot stores the id "abc". -/
def idProbeState : EngineState :=
  { ocpp_init 0 with
    wait := [0]
    pool := (ocpp_init 0).pool.set 0
      { body := { id := storedIdAbc, role := Role.CALL,
                  type := OCPP_MSG_DATA_TRANSFER, payload := (0, 0) },
        expiry := 10, attempts := 1 } }

/-- The slot value produced by `send_message`'s bookkeeping before the
transport call: the attempt counter bumped (stated without uint32 wrap) and
the flat transport retry deadline.  Used to state the `send_message`
contract. -/
def sentMsg (env : Env) (i : Nat) (st : EngineState) : Message :=
  { getMsg st i with
    attempts := (getMsg st i).attempts + 1
    expiry := env.now + (OCPP_DEFAULT_TX_TIMEOUT_SEC : Int) }

/-- An engine state whose event trace already holds one MESSAGE_FREE entry,
used to instantiate event-trace lemmas. -/
def eventProbeState : EngineState :=
  { ocpp_init 0 with events := [(OCPP_EVENT_MESSAGE_FREE, zeroOcppMessage)] }

/-! Helper lemmas. -/

theorem findIdx?_beq_eq_none {l : List String} {s : String} (h : s ∉ l) :
    l.findIdx? (fun n => n == s) = none := by
  induction l with
  | nil => rfl
  | cons a rest ih =>
      have hne : (a == s) = false := by
        refine beq_eq_false_iff_ne.mpr ?_
        intro e
        exact h (by simp [e])
      have hrest : s ∉ rest := fun hr => h (List.mem_cons_of_mem _ hr)
      simp [List.findIdx?_cons, hne, ih hrest]

/-! Claim theorems. -/

/-- C4 (code behavior at the failing input): the source's `add_first_to_list`
is a tail insert, so a timed-out undroppable message (slot 0, BootNotification,
expiry 10) swept at time 20 is re-queued BEHIND the fresh Ready entry (slot 1),
not in front of it. -/
theorem retried_message_requeued_at_tail :
    bootRetryProbeState.wait = [0]
    ∧ bootRetryProbeState.ready = [1]
    ∧ (getMsg bootRetryProbeState 0).body.type = OCPP_MSG_BOOTNOTIFICATION
    ∧ (getMsg bootRetryProbeState 0).expiry = 10
    ∧ (process_tx_timeout 20 bootRetryProbeState).ready = [1, 0]
    ∧ (process_tx_timeout 20 bootRetryProbeState).wait = [] := by
  decide

/-- C7 (counterexample): the incoming id "ab" matches the Wait slot whose
stored id is "abc", although the first strlen("abc") bytes of the two ids do
not agree — so the stored id is not the authoritative length of the
comparison. -/
theorem idstr_match_ignores_stored_length :
    find_msg_by_idstr idProbeState idProbeState.wait incomingIdAb = some 0
    ∧ memcmpEq (getMsg idProbeState 0).body.id incomingIdAb
        (strlenBytes (getMsg idProbeState 0).body.id) = false := by
  decide

/-- C7 (amended): `find_msg_by_idstr` returns the first Wait slot whose stored
id agrees with the incoming id on the first strlen(incoming id) bytes: the
INCOMING id is the authoritative length of the prefix comparison. -/
theorem find_msg_by_idstr_matches_incoming_len (st : EngineState)
    (l msgid : List Nat) :
    find_msg_by_idstr st l msgid =
      l.find? (fun i => memcmpEq msgid (getMsg st i).body.id (strlenBytes msgid)) := by
  induction l with
  | nil => rfl
  | cons i rest ih =>
      by_cases h : memcmpEq msgid (getMsg st i).body.id (strlenBytes msgid) = true
      · simp [find_msg_by_idstr, h, List.find?_cons_of_pos]
      · have hf : memcmpEq msgid (getMsg st i).body.id (strlenBytes msgid) = false :=
          Bool.eq_false_iff.mpr h
        simp [find_msg_by_idstr, hf, List.find?_cons_of_neg, ih]

/-- C9: saving a snapshot and restoring it on a fresh engine yields an engine
with the same pending-request count and, slot for slot, the same
(id, type, role, attempts, expiry). -/
theorem snapshot_roundtrip (st : EngineState) (now : Int) :
    ∃ st2 : EngineState,
      ocpp_restore_snapshot (ocpp_save_snapshot st) now = some st2
      ∧ ocpp_count_pending_requests st2 = ocpp_count_pending_requests st
      ∧ ∀ i : Nat, slotTuple (getMsg st2 i) = slotTuple (getMsg st i) := by
  refine ⟨{ ocpp_init now with
            pool := st.pool, ready := st.ready, wait := st.wait,
            timer := st.timer }, ?_, ?_, ?_⟩
  · simp [ocpp_restore_snapshot, ocpp_save_snapshot]
  · rfl
  · intro i
    rfl

/-- C10: on the 39 recognized actions, `ocpp_get_type_from_string` and
`ocpp_stringify_type` are mutually inverse; unknown names resolve to the
sentinel `OCPP_MSG_MAX` and out-of-range values stringify to
"UnknownMessage". -/
theorem type_registry_roundtrip :
    (∀ t : Nat, t < OCPP_MSG_MAX →
      ocpp_get_type_from_string (ocpp_stringify_type t) = t)
    ∧ (∀ s : String, s ∈ ocpp_typestr_table →
      ocpp_stringify_type (ocpp_get_type_from_string s) = s)
    ∧ (∀ s : String, s ∉ ocpp_typestr_table →
      ocpp_get_type_from_string s = OCPP_MSG_MAX)
    ∧ (∀ t : Nat, OCPP_MSG_MAX ≤ t →
      ocpp_stringify_type t = "UnknownMessage") := by
  refine ⟨?_, ?_, ?_, ?_⟩
  · have hall : (List.range OCPP_MSG_MAX).all
        (fun t => ocpp_get_type_from_string (ocpp_stringify_type t) == t) = true := by
      decide
    intro t ht
    have := List.all_eq_true.mp hall t (List.mem_range.mpr ht)
    simpa using this
  · have hall : ocpp_typestr_table.all
        (fun s => ocpp_stringify_type (ocpp_get_type_from_string s) == s) = true := by
      decide
    intro s hs
    have := List.all_eq_true.mp hall s hs
    simpa using this
  · intro s hs
    simp [ocpp_get_type_from_string, findIdx?_beq_eq_none hs]
  · intro t ht
    simp [ocpp_stringify_type, ht]

/-- C10 witness: the round-trip laws evaluated at concrete inputs. -/
theorem type_registry_roundtrip_witness :
    ocpp_get_type_from_string (ocpp_stringify_type 0) = 0
    ∧ ocpp_stringify_type (ocpp_get_type_from_string "Heartbeat") = "Heartbeat"
    ∧ ocpp_get_type_from_string "NotAnAction" = OCPP_MSG_MAX
    ∧ ocpp_stringify_type 39 = "UnknownMessage" :=
  ⟨type_registry_roundtrip.1 0 (by decide),
   type_registry_roundtrip.2.1 "Heartbeat" (by decide),
   type_registry_roundtrip.2.2.1 "NotAnAction" (by decide),
   type_registry_roundtrip.2.2.2 39 (by decide)⟩


/-! Helper lemmas about pool access and the free path. -/

theorem getMsg_setMsg_self (i : Nat) (m : Message) (st : EngineState)
    (h : i < st.pool.length) : getMsg (setMsg i m st) i = m := by
  simp [getMsg, setMsg, List.getD, List.getElem?_set_self', h]

theorem setMsg_pool_length (i : Nat) (m : Message) (st : EngineState) :
    (setMsg i m st).pool.length = st.pool.length := by
  simp [setMsg]

theorem free_message_events (i : Nat) (st : EngineState) :
    (free_message i st).events =
      st.events ++ [(OCPP_EVENT_MESSAGE_FREE, (getMsg st i).body)] := rfl

theorem getMsg_free_message (i : Nat) (st : EngineState) (h : i < st.pool.length) :
    getMsg (free_message i st) i = zeroMessage := by
  show getMsg (setMsg i zeroMessage
    (dispatch_event OCPP_EVENT_MESSAGE_FREE (getMsg st i).body st)) i = zeroMessage
  exact getMsg_setMsg_self i zeroMessage _ h

theorem should_drop_type_facts (msg : Message) (h : should_drop msg = true) :
    msg.body.type ≠ OCPP_MSG_BOOTNOTIFICATION
    ∧ msg.body.type ≠ OCPP_MSG_START_TRANSACTION
    ∧ msg.body.type ≠ OCPP_MSG_STOP_TRANSACTION
    ∧ msg.body.type ≠ OCPP_MSG_METER_VALUES := by
  have hd : is_droppable msg = true := by
    by_contra hne
    have hf : is_droppable msg = false := Bool.eq_false_iff.mpr hne
    simp [should_drop, hf] at h
  refine ⟨?_, ?_, ?_, ?_⟩ <;> intro e <;>
    simp [is_droppable, is_transaction_related, e] at hd

theorem remove_oldest_go_events (l : List Nat) (st : EngineState) (k : Int)
    (b : OcppMessage) :
    (k, b) ∈ (remove_oldest_go l st).2.events →
      (k, b) ∈ st.events
      ∨ (b.type ≠ OCPP_MSG_BOOTNOTIFICATION ∧ b.type ≠ OCPP_MSG_START_TRANSACTION
          ∧ b.type ≠ OCPP_MSG_STOP_TRANSACTION) := by
  induction l with
  | nil => exact fun h => Or.inl h
  | cons i rest ih =>
      intro h
      simp only [remove_oldest_go] at h
      by_cases hcond : (getMsg st i).body.type ≠ OCPP_MSG_BOOTNOTIFICATION
          ∧ (getMsg st i).body.type ≠ OCPP_MSG_START_TRANSACTION
          ∧ (getMsg st i).body.type ≠ OCPP_MSG_STOP_TRANSACTION
      · rw [if_pos hcond] at h
        replace h : (k, b) ∈ (free_message i (del_msg_ready i st)).events := h
        rw [free_message_events] at h
        rcases List.mem_append.mp h with h1 | h1
        · exact Or.inl h1
        · have hb : b = (getMsg (del_msg_ready i st) i).body :=
            congrArg Prod.snd (List.mem_singleton.mp h1)
          have heq : getMsg (del_msg_ready i st) i = getMsg st i := rfl
          rw [heq] at hb
          subst hb
          exact Or.inr hcond
      · rw [if_neg hcond] at h
        exact ih h

theorem wait_sweep_events (now : Int) (l : List Nat) (st : EngineState) (k : Int)
    (b : OcppMessage) :
    (k, b) ∈ (wait_sweep now l st).events →
      (k, b) ∈ st.events
      ∨ (b.type ≠ OCPP_MSG_BOOTNOTIFICATION ∧ b.type ≠ OCPP_MSG_START_TRANSACTION
          ∧ b.type ≠ OCPP_MSG_STOP_TRANSACTION ∧ b.type ≠ OCPP_MSG_METER_VALUES) := by
  induction l generalizing st with
  | nil => exact fun h => Or.inl h
  | cons i rest ih =>
      intro h
      replace h : (k, b) ∈ (if now < (getMsg st i).expiry
          then wait_sweep now rest st
          else if should_drop (getMsg st i) = true
            then wait_sweep now rest (free_message i (del_msg_wait i st))
            else wait_sweep now rest (put_msg_ready_infront i (del_msg_wait i st))).events := h
      by_cases hexp : now < (getMsg st i).expiry
      · rw [if_pos hexp] at h
        exact ih st h
      · rw [if_neg hexp] at h
        by_cases hdrop : should_drop (getMsg st i) = true
        · rw [if_pos hdrop] at h
          rcases ih _ h with h1 | h1
          · rw [free_message_events] at h1
            rcases List.mem_append.mp h1 with h2 | h2
            · exact Or.inl h2
            · have hb : b = (getMsg (del_msg_wait i st) i).body :=
                congrArg Prod.snd (List.mem_singleton.mp h2)
              have heq : getMsg (del_msg_wait i st) i = getMsg st i := rfl
              rw [heq] at hb
              subst hb
              exact Or.inr (should_drop_type_facts _ hdrop)
          · exact Or.inr h1
        · rw [if_neg hdrop] at h
          exact ih (put_msg_ready_infront i (del_msg_wait i st)) h

/-- C1 (counterexample): with the 8-slot pool full of MeterValues requests, a
forced push evicts and frees the oldest MeterValues slot — capacity pressure
does drop MeterValues, unlike BootNotification/StartTransaction/StopTransaction. -/
theorem forced_eviction_frees_meter_values :
    meterPoolState.ready = [0, 1, 2, 3, 4, 5, 6, 7]
    ∧ (getMsg meterPoolState 0).body.type = OCPP_MSG_METER_VALUES
    ∧ meterPoolState.events = []
    ∧ meterEvictedState.events.map (fun p => (p.1, p.2.type))
        = [(OCPP_EVENT_MESSAGE_FREE, OCPP_MSG_METER_VALUES)] := by
  decide

/-- C1 (amended): forced eviction (`remove_oldest`) never frees a
BootNotification, StartTransaction or StopTransaction slot (MeterValues is NOT
protected there), and the attempt-exhaustion path of the Wait timeout sweep
(`should_drop`) never frees any of the four undroppable types, MeterValues
included: every MESSAGE_FREE event either predates the call or concerns a
type outside the respective protected set. -/
theorem undroppable_protection (st : EngineState) (now : Int) (k : Int)
    (b : OcppMessage) :
    ((k, b) ∈ (remove_oldest st).2.events →
      (k, b) ∈ st.events
      ∨ (b.type ≠ OCPP_MSG_BOOTNOTIFICATION ∧ b.type ≠ OCPP_MSG_START_TRANSACTION
          ∧ b.type ≠ OCPP_MSG_STOP_TRANSACTION))
    ∧ ((k, b) ∈ (process_tx_timeout now st).events →
      (k, b) ∈ st.events
      ∨ (b.type ≠ OCPP_MSG_BOOTNOTIFICATION ∧ b.type ≠ OCPP_MSG_START_TRANSACTION
          ∧ b.type ≠ OCPP_MSG_STOP_TRANSACTION ∧ b.type ≠ OCPP_MSG_METER_VALUES)) :=
  ⟨remove_oldest_go_events st.ready st k b, wait_sweep_events now st.wait st k b⟩

/-- An engine whose event trace already holds one MESSAGE_FREE entry. -/
theorem undroppable_protection_witness :
    ((OCPP_EVENT_MESSAGE_FREE, zeroOcppMessage) ∈ eventProbeState.events
      ∨ (zeroOcppMessage.type ≠ OCPP_MSG_BOOTNOTIFICATION
          ∧ zeroOcppMessage.type ≠ OCPP_MSG_START_TRANSACTION
          ∧ zeroOcppMessage.type ≠ OCPP_MSG_STOP_TRANSACTION))
    ∧ ((OCPP_EVENT_MESSAGE_FREE, zeroOcppMessage) ∈ eventProbeState.events
      ∨ (zeroOcppMessage.type ≠ OCPP_MSG_BOOTNOTIFICATION
          ∧ zeroOcppMessage.type ≠ OCPP_MSG_START_TRANSACTION
          ∧ zeroOcppMessage.type ≠ OCPP_MSG_STOP_TRANSACTION
          ∧ zeroOcppMessage.type ≠ OCPP_MSG_METER_VALUES)) :=
  ⟨(undroppable_protection eventProbeState 0 OCPP_EVENT_MESSAGE_FREE zeroOcppMessage).1
      (by decide),
   (undroppable_protection eventProbeState 0 OCPP_EVENT_MESSAGE_FREE zeroOcppMessage).2
      (by decide)⟩


/-- C3: `send_message` bumps the attempt counter by exactly one, stamps
`expiry = now + OCPP_DEFAULT_TX_TIMEOUT_SEC`, removes the slot from Ready,
and then routes it: transport success with role CALL moves it to Wait;
success with role CALLRESULT/CALLERROR frees it; failure moves it to Wait
when the (bumped) attempt count is below MAX_TX_RETRIES or the slot is
transaction-related or a BootNotification, and frees it otherwise. -/
theorem send_message_contract (env : Env) (i : Nat) (st : EngineState)
    (hi : i < st.pool.length)
    (hwrap : (getMsg st i).attempts + 1 < U32) :
    (send_message env i st).ready = st.ready.erase i
    ∧ (send_message env i st).timer = st.timer
    ∧ (env.sendResult (sentMsg env i st).body = 0 →
        (sentMsg env i st).body.role = Role.CALL →
        (send_message env i st).wait = st.wait ++ [i]
        ∧ getMsg (send_message env i st) i = sentMsg env i st)
    ∧ (env.sendResult (sentMsg env i st).body = 0 →
        ((sentMsg env i st).body.role = Role.CALLRESULT
          ∨ (sentMsg env i st).body.role = Role.CALLERROR) →
        getMsg (send_message env i st) i = zeroMessage
        ∧ (send_message env i st).wait = st.wait
        ∧ (send_message env i st).events
            = st.events ++ [(OCPP_EVENT_MESSAGE_FREE, (sentMsg env i st).body)])
    ∧ (env.sendResult (sentMsg env i st).body ≠ 0 →
        ((sentMsg env i st).attempts < OCPP_DEFAULT_TX_RETRIES
          ∨ is_transaction_related (sentMsg env i st) = true
          ∨ (sentMsg env i st).body.type = OCPP_MSG_BOOTNOTIFICATION) →
        (send_message env i st).wait = st.wait ++ [i]
        ∧ getMsg (send_message env i st) i = sentMsg env i st)
    ∧ (env.sendResult (sentMsg env i st).body ≠ 0 →
        ¬((sentMsg env i st).attempts < OCPP_DEFAULT_TX_RETRIES
          ∨ is_transaction_related (sentMsg env i st) = true
          ∨ (sentMsg env i st).body.type = OCPP_MSG_BOOTNOTIFICATION) →
        getMsg (send_message env i st) i = zeroMessage
        ∧ (send_message env i st).wait = st.wait
        ∧ (send_message env i st).events
            = st.events ++ [(OCPP_EVENT_MESSAGE_FREE, (sentMsg env i st).body)]) := by
  have hmod : ((getMsg st i).attempts + 1) % U32 = (getMsg st i).attempts + 1 :=
    Nat.mod_eq_of_lt hwrap
  have hsm : send_message env i st =
      (if env.sendResult (sentMsg env i st).body = 0 then
         if (sentMsg env i st).body.role = Role.CALL then
           put_msg_wait i (logSend (sentMsg env i st).body
             (del_msg_ready i (setMsg i (sentMsg env i st) st)))
         else
           free_message i (logSend (sentMsg env i st).body
             (del_msg_ready i (setMsg i (sentMsg env i st) st)))
       else
         if (sentMsg env i st).attempts < OCPP_DEFAULT_TX_RETRIES
             ∨ is_transaction_related (sentMsg env i st) = true
             ∨ (sentMsg env i st).body.type = OCPP_MSG_BOOTNOTIFICATION then
           put_msg_wait i (logSend (sentMsg env i st).body
             (del_msg_ready i (setMsg i (sentMsg env i st) st)))
         else
           free_message i (logSend (sentMsg env i st).body
             (del_msg_ready i (setMsg i (sentMsg env i st) st)))) := by
    simp only [send_message, get_retry_interval, hmod, sentMsg]
  have hget : getMsg (logSend (sentMsg env i st).body
      (del_msg_ready i (setMsg i (sentMsg env i st) st))) i = sentMsg env i st :=
    getMsg_setMsg_self i (sentMsg env i st) st hi
  have hlen : i < (logSend (sentMsg env i st).body
      (del_msg_ready i (setMsg i (sentMsg env i st) st))).pool.length := by
    show i < (st.pool.set i (sentMsg env i st)).length
    simpa using hi
  refine ⟨?_, ?_, ?_, ?_, ?_, ?_⟩
  · rw [hsm]
    split
    · split <;> rfl
    · split <;> rfl
  · rw [hsm]
    split
    · split <;> rfl
    · split <;> rfl
  · intro hs hrole
    rw [hsm, if_pos hs, if_pos hrole]
    exact ⟨rfl, hget⟩
  · intro hs hrole
    have hne : ¬(sentMsg env i st).body.role = Role.CALL := by
      rcases hrole with h | h <;> simp [h]
    rw [hsm, if_pos hs, if_neg hne]
    refine ⟨getMsg_free_message i _ hlen, rfl, ?_⟩
    rw [free_message_events, hget]
    rfl
  · intro hs hcond
    rw [hsm, if_neg hs, if_pos hcond]
    exact ⟨rfl, hget⟩
  · intro hs hcond
    rw [hsm, if_neg hs, if_neg hcond]
    refine ⟨getMsg_free_message i _ hlen, rfl, ?_⟩
    rw [free_message_events, hget]
    rfl

/-- C3 witness: the contract applied to a fresh DataTransfer push with a
working transport. -/
theorem send_message_contract_witness :
    0 < dtPushState.pool.length
    ∧ (getMsg dtPushState 0).attempts + 1 < U32
    ∧ (send_message (envSendOk 0) 0 dtPushState).ready = dtPushState.ready.erase 0
    ∧ (send_message (envSendOk 0) 0 dtPushState).wait = dtPushState.wait ++ [0] :=
  ⟨by decide, by decide,
   (send_message_contract (envSendOk 0) 0 dtPushState (by decide) (by decide)).1,
   ((send_message_contract (envSendOk 0) 0 dtPushState (by decide) (by decide)).2.2.1
      (by decide) (by decide)).1⟩

/-- C5: a CALLERROR matching a transaction-related Wait slot with attempts
below TransactionMessageAttempts removes the slot from Wait and re-pushes it
to Wait with expiry = now + TransactionMessageRetryInterval * attempts, with
no transport send and no event; at or above the bound the slot is freed. -/
theorem callerror_backoff_contract (cfg : Config) (received : OcppMessage)
    (i : Nat) (now : Int) (st : EngineState)
    (hrole : received.role = Role.CALLERROR)
    (hi : i < st.pool.length)
    (htx : is_transaction_related (getMsg st i) = true)
    (hwrap : cfg.transactionMessageRetryInterval * (getMsg st i).attempts < U32) :
    ((getMsg st i).attempts < cfg.transactionMessageAttempts →
      (process_central_response cfg received i now st).wait = st.wait.erase i ++ [i]
      ∧ getMsg (process_central_response cfg received i now st) i =
          { getMsg st i with expiry :=
              now + ((cfg.transactionMessageRetryInterval * (getMsg st i).attempts : Nat) : Int) }
      ∧ (process_central_response cfg received i now st).sendLog = st.sendLog
      ∧ (process_central_response cfg received i now st).events = st.events)
    ∧ (cfg.transactionMessageAttempts ≤ (getMsg st i).attempts →
      getMsg (process_central_response cfg received i now st) i = zeroMessage
      ∧ (process_central_response cfg received i now st).wait = st.wait.erase i
      ∧ (process_central_response cfg received i now st).events
          = st.events ++ [(OCPP_EVENT_MESSAGE_FREE, (getMsg st i).body)]
      ∧ (process_central_response cfg received i now st).sendLog = st.sendLog) := by
  have hreq : getMsg (del_msg_wait i st) i = getMsg st i := rfl
  have hcnd : received.role = Role.CALLERROR
      ∧ is_transaction_related (getMsg (del_msg_wait i st) i) = true := ⟨hrole, htx⟩
  have hpcr : process_central_response cfg received i now st =
      (if (getMsg (del_msg_wait i st) i).attempts < cfg.transactionMessageAttempts then
        put_msg_wait i (setMsg i
          (update_message_expiry cfg (getMsg (del_msg_wait i st) i) now) (del_msg_wait i st))
      else free_message i (del_msg_wait i st)) := by
    simp only [process_central_response]
    rw [if_pos hcnd]
  constructor
  · intro hlt
    rw [hpcr, if_pos (hreq ▸ hlt)]
    have hx : update_message_expiry cfg (getMsg (del_msg_wait i st) i) now =
        { getMsg st i with expiry :=
            now + ((cfg.transactionMessageRetryInterval * (getMsg st i).attempts : Nat) : Int) } := by
      rw [hreq]
      simp only [update_message_expiry, get_next_period]
      rw [if_pos htx, Nat.mod_eq_of_lt hwrap]
    refine ⟨rfl, ?_, rfl, rfl⟩
    rw [hx]
    exact getMsg_setMsg_self i _ (del_msg_wait i st) hi
  · intro hge
    have hnlt : ¬(getMsg (del_msg_wait i st) i).attempts < cfg.transactionMessageAttempts := by
      rw [hreq]
      exact not_lt.mpr hge
    rw [hpcr, if_neg hnlt]
    refine ⟨getMsg_free_message i _ hi, rfl, ?_, rfl⟩
    rw [free_message_events, hreq]
    rfl

/-- C5 witness: the backoff contract applied to a StartTransaction waiting
after one send, answered by a matching CALLERROR at time 1. -/
theorem callerror_backoff_contract_witness :
    is_transaction_related (getMsg stxWaitState 0) = true
    ∧ (getMsg stxWaitState 0).attempts < quietCfg.transactionMessageAttempts
    ∧ (process_central_response quietCfg stxErrorMsg 0 1 stxWaitState).wait
        = stxWaitState.wait.erase 0 ++ [0]
    ∧ (process_central_response quietCfg stxErrorMsg 0 1 stxWaitState).sendLog
        = stxWaitState.sendLog :=
  ⟨by decide, by decide,
   ((callerror_backoff_contract quietCfg stxErrorMsg 0 1 stxWaitState
      (by decide) (by decide) (by decide) (by decide)).1 (by decide)).1,
   ((callerror_backoff_contract quietCfg stxErrorMsg 0 1 stxWaitState
      (by decide) (by decide) (by decide) (by decide)).1 (by decide)).2.2.1⟩


/-! Structural lemmas feeding the serialization invariant (claim about the
Wait queue) and the heartbeat analysis. -/

theorem findIdx?_bounds {α : Type} (p : α → Bool) (l : List α) :
    ∀ (s i : Nat), List.findIdx? p l s = some i → i < s + l.length := by
  induction l with
  | nil => intro s i h; simp [List.findIdx?_nil] at h
  | cons a rest ih =>
      intro s i h
      rw [List.findIdx?_cons] at h
      by_cases hp : p a = true
      · rw [if_pos hp] at h
        injection h with h
        simp only [List.length_cons]
        omega
      · rw [if_neg hp] at h
        have := ih (s + 1) i h
        simp only [List.length_cons]
        omega

theorem findIdx?_lt_length {α : Type} (p : α → Bool) (l : List α) (i : Nat)
    (h : l.findIdx? p = some i) : i < l.length := by
  have := findIdx?_bounds p l 0 i h
  omega

theorem setMsg_setMsg (i : Nat) (a b : Message) (st : EngineState) :
    setMsg i b (setMsg i a st) = setMsg i b st := by
  simp [setMsg, List.set_set]

theorem alloc_message_shape (st : EngineState) (p : Nat × EngineState)
    (h : alloc_message st = some p) :
    p.2 = setMsg p.1
        { getMsg st p.1 with body := { (getMsg st p.1).body with role := Role.ALLOC } } st
    ∧ p.1 < st.pool.length := by
  unfold alloc_message at h
  cases hf : st.pool.findIdx? (fun m => m.body.role == Role.NONE) with
  | none => rw [hf] at h; simp at h
  | some j =>
      rw [hf] at h
      simp only [Option.some.injEq] at h
      rw [← h]
      exact ⟨rfl, findIdx?_lt_length _ _ _ hf⟩

theorem new_message_shape (rid : Option (List Nat)) (type : Nat) (err : Bool)
    (gen : List Nat) (st : EngineState) (i : Nat) (st1 : EngineState)
    (h : new_message rid type err gen st = some (i, st1)) :
    ∃ m : Message, st1 = setMsg i m st ∧ i < st.pool.length := by
  unfold new_message at h
  cases ha : alloc_message st with
  | none => rw [ha] at h; simp at h
  | some p =>
      rw [ha] at h
      obtain ⟨hA, hlt⟩ := alloc_message_shape st p ha
      simp only [Option.some.injEq, Prod.mk.injEq] at h
      obtain ⟨hi, hst1⟩ := h
      subst hi
      exact ⟨_, by rw [← hst1, hA, setMsg_setMsg], hlt⟩

theorem wait_sweep_wait_sendLog (now : Int) (l : List Nat) (st : EngineState) :
    (wait_sweep now l st).wait.length ≤ st.wait.length
    ∧ (wait_sweep now l st).sendLog = st.sendLog := by
  induction l generalizing st with
  | nil => exact ⟨le_rfl, rfl⟩
  | cons i rest ih =>
      have hx : wait_sweep now (i :: rest) st =
          (if now < (getMsg st i).expiry then wait_sweep now rest st
           else if should_drop (getMsg st i) = true
             then wait_sweep now rest (free_message i (del_msg_wait i st))
             else wait_sweep now rest (put_msg_ready_infront i (del_msg_wait i st))) := rfl
      rw [hx]
      by_cases hexp : now < (getMsg st i).expiry
      · rw [if_pos hexp]; exact ih st
      · rw [if_neg hexp]
        have herase : (st.wait.erase i).length ≤ st.wait.length :=
          (List.erase_sublist i st.wait).length_le
        by_cases hdrop : should_drop (getMsg st i) = true
        · rw [if_pos hdrop]
          refine ⟨le_trans (ih (free_message i (del_msg_wait i st))).1 herase,
            (ih (free_message i (del_msg_wait i st))).2⟩
        · rw [if_neg hdrop]
          refine ⟨le_trans (ih (put_msg_ready_infront i (del_msg_wait i st))).1 herase,
            (ih (put_msg_ready_infront i (del_msg_wait i st))).2⟩

theorem send_message_wait_shape (env : Env) (i : Nat) (st : EngineState) :
    (send_message env i st).wait = st.wait
    ∨ (send_message env i st).wait = st.wait ++ [i] := by
  simp only [send_message]
  split
  · split
    · right; rfl
    · left; rfl
  · split
    · right; rfl
    · left; rfl

theorem send_message_sendLog (env : Env) (i : Nat) (st : EngineState) :
    (send_message env i st).sendLog
      = st.sendLog ++ [((getMsg st i).body, st.wait.length)] := by
  simp only [send_message]
  split
  · split <;> rfl
  · split <;> rfl

theorem process_queued_messages_inv (env : Env) (st : EngineState)
    (h1 : st.wait.length ≤ 1) (h2 : ∀ p ∈ st.sendLog, p.2 = 0) :
    (process_queued_messages env st).2.wait.length ≤ 1
    ∧ ∀ p ∈ (process_queued_messages env st).2.sendLog, p.2 = 0 := by
  simp only [process_queued_messages]
  have hw1 : (process_tx_timeout env.now st).wait.length ≤ st.wait.length :=
    (wait_sweep_wait_sendLog env.now st.wait st).1
  have hl1 : (process_tx_timeout env.now st).sendLog = st.sendLog :=
    (wait_sweep_wait_sendLog env.now st.wait st).2
  by_cases hbusy : 0 < count_messages_waiting (process_tx_timeout env.now st)
  · rw [if_pos hbusy]
    refine ⟨le_trans hw1 h1, ?_⟩
    intro p hp
    exact h2 p (hl1 ▸ hp)
  · rw [if_neg hbusy]
    have hw0 : (process_tx_timeout env.now st).wait = [] :=
      List.length_eq_zero.mp (Nat.eq_zero_of_not_pos hbusy)
    cases hr : (process_tx_timeout env.now st).ready with
    | nil =>
        simp only [hr]
        refine ⟨le_trans hw1 h1, ?_⟩
        intro p hp
        exact h2 p (hl1 ▸ hp)
    | cons i rest =>
        simp only [hr]
        constructor
        · show (send_message env i (process_tx_timeout env.now st)).wait.length ≤ 1
          rcases send_message_wait_shape env i (process_tx_timeout env.now st) with hsw | hsw <;>
            rw [hsw, hw0] <;> simp
        · intro p hp
          replace hp : p ∈ (send_message env i (process_tx_timeout env.now st)).sendLog := hp
          rw [send_message_sendLog] at hp
          rcases List.mem_append.mp hp with hp1 | hp1
          · exact h2 p (hl1 ▸ hp1)
          · rw [List.mem_singleton.mp hp1]
            show (process_tx_timeout env.now st).wait.length = 0
            rw [hw0]
            rfl

theorem find_msg_by_idstr_mem (st : EngineState) (l msgid : List Nat) (i : Nat)
    (h : find_msg_by_idstr st l msgid = some i) : i ∈ l := by
  induction l with
  | nil => simp [find_msg_by_idstr] at h
  | cons j rest ih =>
      have hx : find_msg_by_idstr st (j :: rest) msgid =
          (if memcmpEq msgid (getMsg st j).body.id (strlenBytes msgid) = true then some j
           else find_msg_by_idstr st rest msgid) := rfl
      rw [hx] at h
      by_cases hc : memcmpEq msgid (getMsg st j).body.id (strlenBytes msgid) = true
      · rw [if_pos hc] at h
        injection h with h
        rw [← h]
        exact List.mem_cons_self _ _
      · rw [if_neg hc] at h
        exact List.mem_cons_of_mem _ (ih h)

theorem process_central_response_wait (cfg : Config) (received : OcppMessage)
    (i : Nat) (now : Int) (st : EngineState) :
    (process_central_response cfg received i now st).wait = st.wait.erase i ++ [i]
    ∨ (process_central_response cfg received i now st).wait = st.wait.erase i := by
  simp only [process_central_response]
  split
  · split
    · left; rfl
    · right; rfl
  · right; rfl

theorem process_central_response_sendLog (cfg : Config) (received : OcppMessage)
    (i : Nat) (now : Int) (st : EngineState) :
    (process_central_response cfg received i now st).sendLog = st.sendLog := by
  simp only [process_central_response]
  split
  · split <;> rfl
  · rfl

theorem process_incoming_wait_sendLog (env : Env) (st : EngineState) :
    ((process_incoming_messages env st).2.wait = st.wait
      ∨ ∃ i, i ∈ st.wait
          ∧ ((process_incoming_messages env st).2.wait = st.wait.erase i ++ [i]
              ∨ (process_incoming_messages env st).2.wait = st.wait.erase i))
    ∧ (process_incoming_messages env st).2.sendLog = st.sendLog := by
  simp only [process_incoming_messages]
  by_cases he : env.recvErr = 0
  · have hne : ¬env.recvErr ≠ 0 := fun hx => hx he
    rw [if_pos he, if_neg hne]
    cases hR : env.recvMsg.role with
    | CALL =>
        simp only [hR]
        split
        · exact ⟨Or.inl rfl, rfl⟩
        · split
          · exact ⟨Or.inl rfl, rfl⟩
          · exact ⟨Or.inl rfl, rfl⟩
    | CALLRESULT =>
        simp only [hR]
        cases hf : find_msg_by_idstr st st.wait env.recvMsg.id with
        | none =>
            simp only [hf]
            split
            · exact ⟨Or.inl rfl, rfl⟩
            · split
              · exact ⟨Or.inl rfl, rfl⟩
              · exact ⟨Or.inl rfl, rfl⟩
        | some i =>
            simp only [hf]
            split
            · exact ⟨Or.inr ⟨i, find_msg_by_idstr_mem st st.wait env.recvMsg.id i hf,
                process_central_response_wait env.cfg env.recvMsg i env.now st⟩,
                process_central_response_sendLog env.cfg env.recvMsg i env.now st⟩
            · split
              · exact ⟨Or.inr ⟨i, find_msg_by_idstr_mem st st.wait env.recvMsg.id i hf,
                  process_central_response_wait env.cfg env.recvMsg i env.now st⟩,
                  process_central_response_sendLog env.cfg env.recvMsg i env.now st⟩
              · exact ⟨Or.inr ⟨i, find_msg_by_idstr_mem st st.wait env.recvMsg.id i hf,
                  process_central_response_wait env.cfg env.recvMsg i env.now st⟩,
                  process_central_response_sendLog env.cfg env.recvMsg i env.now st⟩
    | CALLERROR =>
        simp only [hR]
        cases hf : find_msg_by_idstr st st.wait env.recvMsg.id with
        | none =>
            simp only [hf]
            split
            · exact ⟨Or.inl rfl, rfl⟩
            · split
              · exact ⟨Or.inl rfl, rfl⟩
              · exact ⟨Or.inl rfl, rfl⟩
        | some i =>
            simp only [hf]
            split
            · exact ⟨Or.inr ⟨i, find_msg_by_idstr_mem st st.wait env.recvMsg.id i hf,
                process_central_response_wait env.cfg env.recvMsg i env.now st⟩,
                process_central_response_sendLog env.cfg env.recvMsg i env.now st⟩
            · split
              · exact ⟨Or.inr ⟨i, find_msg_by_idstr_mem st st.wait env.recvMsg.id i hf,
                  process_central_response_wait env.cfg env.recvMsg i env.now st⟩,
                  process_central_response_sendLog env.cfg env.recvMsg i env.now st⟩
              · exact ⟨Or.inr ⟨i, find_msg_by_idstr_mem st st.wait env.recvMsg.id i hf,
                  process_central_response_wait env.cfg env.recvMsg i env.now st⟩,
                  process_central_response_sendLog env.cfg env.recvMsg i env.now st⟩
    | NONE =>
        simp only [hR]
        split
        · exact ⟨Or.inl rfl, rfl⟩
        · split
          · exact ⟨Or.inl rfl, rfl⟩
          · exact ⟨Or.inl rfl, rfl⟩
    | ALLOC =>
        simp only [hR]
        split
        · exact ⟨Or.inl rfl, rfl⟩
        · split
          · exact ⟨Or.inl rfl, rfl⟩
          · exact ⟨Or.inl rfl, rfl⟩
  · have hyes : env.recvErr ≠ 0 := he
    rw [if_pos hyes]
    split
    · exact ⟨Or.inl rfl, rfl⟩
    · split
      · exact ⟨Or.inl rfl, rfl⟩
      · exact ⟨Or.inl rfl, rfl⟩

theorem process_incoming_messages_inv (env : Env) (st : EngineState)
    (h1 : st.wait.length ≤ 1) (h2 : ∀ p ∈ st.sendLog, p.2 = 0) :
    (process_incoming_messages env st).2.wait.length ≤ 1
    ∧ ∀ p ∈ (process_incoming_messages env st).2.sendLog, p.2 = 0 := by
  obtain ⟨hw, hl⟩ := process_incoming_wait_sendLog env st
  constructor
  · rcases hw with hw | ⟨i, hmem, hw | hw⟩
    · rw [hw]; exact h1
    · rw [hw]
      have := List.length_erase_of_mem hmem
      have hpos := List.length_pos_of_mem hmem
      simp only [List.length_append, List.length_cons, List.length_nil]
      omega
    · rw [hw]
      exact le_trans (List.erase_sublist i st.wait).length_le h1
  · intro p hp
    exact h2 p (hl ▸ hp)

theorem should_send_heartbeat_wait_nil (cfg : Config) (now : Int)
    (st : EngineState) (h : should_send_heartbeat cfg now st = true) :
    st.wait = [] := by
  by_contra hne
  have hpos : 0 < count_messages_waiting st := by
    have : st.wait ≠ [] := hne
    show 0 < st.wait.length
    exact List.length_pos.mpr this
  unfold should_send_heartbeat at h
  rw [if_pos (Or.inr (Or.inr (Or.inr hpos)))] at h
  exact Bool.false_ne_true h

theorem process_periodic_messages_inv (env : Env) (st : EngineState)
    (h1 : st.wait.length ≤ 1) (h2 : ∀ p ∈ st.sendLog, p.2 = 0) :
    (process_periodic_messages env st).2.wait.length ≤ 1
    ∧ ∀ p ∈ (process_periodic_messages env st).2.sendLog, p.2 = 0 := by
  simp only [process_periodic_messages]
  by_cases hhb : should_send_heartbeat env.cfg env.now st = true
  · rw [if_pos hhb]
    cases hn : new_message none OCPP_MSG_HEARTBEAT false env.genId st with
    | none => exact ⟨h1, h2⟩
    | some p =>
        obtain ⟨i, st1⟩ := p
        obtain ⟨m, hst1, hlt⟩ := new_message_shape none OCPP_MSG_HEARTBEAT false
          env.genId st i st1 hn
        subst hst1
        simp only
        exact process_queued_messages_inv env (put_msg_ready i (setMsg i m st)) h1 h2
  · rw [if_neg hhb]
    exact ⟨h1, h2⟩

theorem timer_promote_wait_sendLog (now : Int) (l : List Nat) (st : EngineState) :
    (timer_promote now l st).wait = st.wait
    ∧ (timer_promote now l st).sendLog = st.sendLog := by
  induction l generalizing st with
  | nil => exact ⟨rfl, rfl⟩
  | cons i rest ih =>
      have hx : timer_promote now (i :: rest) st =
          (if now < (getMsg st i).expiry then timer_promote now rest st
           else timer_promote now rest (put_msg_ready i (del_msg_timer i st))) := rfl
      rw [hx]
      by_cases hexp : now < (getMsg st i).expiry
      · rw [if_pos hexp]; exact ih st
      · rw [if_neg hexp]
        exact ih (put_msg_ready i (del_msg_timer i st))

theorem process_timer_messages_inv (now : Int) (st : EngineState)
    (h1 : st.wait.length ≤ 1) (h2 : ∀ p ∈ st.sendLog, p.2 = 0) :
    (process_timer_messages now st).wait.length ≤ 1
    ∧ ∀ p ∈ (process_timer_messages now st).sendLog, p.2 = 0 := by
  unfold process_timer_messages
  split
  · exact ⟨h1, h2⟩
  · obtain ⟨hw, hl⟩ := timer_promote_wait_sendLog now st.timer st
    refine ⟨?_, ?_⟩
    · rw [hw]; exact h1
    · intro p hp
      exact h2 p (hl ▸ hp)

theorem ocpp_step_inv (env : Env) (st : EngineState)
    (h1 : st.wait.length ≤ 1) (h2 : ∀ p ∈ st.sendLog, p.2 = 0) :
    (ocpp_step env st).wait.length ≤ 1
    ∧ ∀ p ∈ (ocpp_step env st).sendLog, p.2 = 0 := by
  unfold ocpp_step
  obtain ⟨a1, a2⟩ := process_queued_messages_inv env st h1 h2
  obtain ⟨b1, b2⟩ := process_incoming_messages_inv env
    (process_queued_messages env st).2 a1 a2
  obtain ⟨c1, c2⟩ := process_periodic_messages_inv env
    (process_incoming_messages env (process_queued_messages env st).2).2 b1 b2
  exact process_timer_messages_inv env.now _ c1 c2

theorem push_message_wait_sendLog (rid : Option (List Nat)) (type : Nat)
    (payload : Nat × Nat) (timer : Int) (f : Nat → EngineState → EngineState)
    (err : Bool) (gen : List Nat) (st : EngineState)
    (hf : ∀ j s, (f j s).wait = s.wait ∧ (f j s).sendLog = s.sendLog) :
    (push_message rid type payload timer f err gen st).2.wait = st.wait
    ∧ (push_message rid type payload timer f err gen st).2.sendLog = st.sendLog := by
  unfold push_message
  cases hn : new_message rid type err gen st with
  | none => exact ⟨rfl, rfl⟩
  | some p =>
      obtain ⟨i, st1⟩ := p
      obtain ⟨m, hst1, hlt⟩ := new_message_shape rid type err gen st i st1 hn
      subst hst1
      simp only
      obtain ⟨hfw, hfl⟩ := hf i (setMsg i
        { getMsg (setMsg i m st) i with
          expiry := timer
          body := { (getMsg (setMsg i m st) i).body with payload := payload } }
        (setMsg i m st))
      exact ⟨hfw, hfl⟩

theorem put_msg_ready_keeps (j : Nat) (s : EngineState) :
    (put_msg_ready j s).wait = s.wait ∧ (put_msg_ready j s).sendLog = s.sendLog :=
  ⟨rfl, rfl⟩

theorem put_msg_timer_keeps (j : Nat) (s : EngineState) :
    (put_msg_timer j s).wait = s.wait ∧ (put_msg_timer j s).sendLog = s.sendLog :=
  ⟨rfl, rfl⟩

theorem remove_oldest_go_wait_sendLog (l : List Nat) (st : EngineState) :
    (remove_oldest_go l st).2.wait = st.wait
    ∧ (remove_oldest_go l st).2.sendLog = st.sendLog := by
  induction l with
  | nil => exact ⟨rfl, rfl⟩
  | cons i rest ih =>
      have hx : remove_oldest_go (i :: rest) st =
          (if (getMsg st i).body.type ≠ OCPP_MSG_BOOTNOTIFICATION
              ∧ (getMsg st i).body.type ≠ OCPP_MSG_START_TRANSACTION
              ∧ (getMsg st i).body.type ≠ OCPP_MSG_STOP_TRANSACTION
           then (0, free_message i (del_msg_ready i st))
           else remove_oldest_go rest st) := rfl
      rw [hx]
      by_cases hc : (getMsg st i).body.type ≠ OCPP_MSG_BOOTNOTIFICATION
          ∧ (getMsg st i).body.type ≠ OCPP_MSG_START_TRANSACTION
          ∧ (getMsg st i).body.type ≠ OCPP_MSG_STOP_TRANSACTION
      · rw [if_pos hc]; exact ⟨rfl, rfl⟩
      · rw [if_neg hc]; exact ih

theorem ocpp_push_request_wait_sendLog (type : Nat) (payload : Nat × Nat)
    (force : Bool) (g1 g2 : List Nat) (st : EngineState) :
    (ocpp_push_request type payload force g1 g2 st).2.wait = st.wait
    ∧ (ocpp_push_request type payload force g1 g2 st).2.sendLog = st.sendLog := by
  simp only [ocpp_push_request]
  split
  · obtain ⟨ha, hb⟩ := push_message_wait_sendLog none type payload 0 put_msg_ready
      false g1 st put_msg_ready_keeps
    obtain ⟨hc, hd⟩ := remove_oldest_go_wait_sendLog
      (push_message none type payload 0 put_msg_ready false g1 st).2.ready
      (push_message none type payload 0 put_msg_ready false g1 st).2
    obtain ⟨hean, hf⟩ := push_message_wait_sendLog none type payload 0 put_msg_ready
      false g2 (remove_oldest (push_message none type payload 0 put_msg_ready false g1 st).2).2
      put_msg_ready_keeps
    refine ⟨?_, ?_⟩
    · rw [hean]
      show (remove_oldest_go _ _).2.wait = st.wait
      rw [hc, ha]
    · rw [hf]
      show (remove_oldest_go _ _).2.sendLog = st.sendLog
      rw [hd, hb]
  · exact push_message_wait_sendLog none type payload 0 put_msg_ready false g1 st
      put_msg_ready_keeps

theorem ocpp_push_request_defer_wait_sendLog (type : Nat) (payload : Nat × Nat)
    (timer_sec : Nat) (now : Int) (g : List Nat) (st : EngineState) :
    (ocpp_push_request_defer type payload timer_sec now g st).2.wait = st.wait
    ∧ (ocpp_push_request_defer type payload timer_sec now g st).2.sendLog = st.sendLog := by
  unfold ocpp_push_request_defer
  split
  · exact push_message_wait_sendLog none type payload (now + (timer_sec : Int))
      put_msg_ready false g st put_msg_ready_keeps
  · exact push_message_wait_sendLog none type payload (now + (timer_sec : Int))
      put_msg_timer false g st put_msg_timer_keeps

theorem ocpp_push_response_wait_sendLog (req : OcppMessage) (payload : Nat × Nat)
    (err : Bool) (st : EngineState) :
    (ocpp_push_response req payload err st).2.wait = st.wait
    ∧ (ocpp_push_response req payload err st).2.sendLog = st.sendLog :=
  push_message_wait_sendLog (some req.id) req.type payload 0 put_msg_ready err [] st
    put_msg_ready_keeps

/-- C2: in every state reachable from `ocpp_init` through the public API and
`ocpp_step` — for arbitrary transport, clock and configuration behavior — the
Wait queue holds at most one slot, and every transport send ever issued
happened while the Wait queue was empty (the recorded wait-queue length at
each `ocpp_send` call is 0). -/
theorem wait_queue_serialization_invariant (st : EngineState)
    (h : Reachable st) :
    st.wait.length ≤ 1 ∧ ∀ p ∈ st.sendLog, p.2 = 0 := by
  induction h with
  | init now => exact ⟨by simp [ocpp_init], by simp [ocpp_init]⟩
  | step env hst ih => exact ocpp_step_inv env _ ih.1 ih.2
  | pushRequest type payload force g1 g2 hst ih =>
      obtain ⟨hw, hl⟩ := ocpp_push_request_wait_sendLog type payload force g1 g2 _
      constructor
      · rw [hw]; exact ih.1
      · intro p hp
        rw [hl] at hp
        exact ih.2 p hp
  | pushRequestDefer type payload timer_sec now g hst ih =>
      obtain ⟨hw, hl⟩ := ocpp_push_request_defer_wait_sendLog type payload timer_sec now g _
      constructor
      · rw [hw]; exact ih.1
      · intro p hp
        rw [hl] at hp
        exact ih.2 p hp
  | pushResponse req payload err hst ih =>
      obtain ⟨hw, hl⟩ := ocpp_push_response_wait_sendLog req payload err _
      constructor
      · rw [hw]; exact ih.1
      · intro p hp
        rw [hl] at hp
        exact ih.2 p hp

/-- C2 witness: the invariant applied to a concrete reachable state (one
DataTransfer pushed and sent, now waiting). -/
theorem wait_queue_serialization_invariant_witness :
    dtWaitState.wait.length ≤ 1 ∧ ∀ p ∈ dtWaitState.sendLog, p.2 = 0 :=
  wait_queue_serialization_invariant dtWaitState
    (Reachable.step (envSendOk 0)
      (Reachable.pushRequest OCPP_MSG_DATA_TRANSFER (0, 0) false sampleId sampleId
        (Reachable.init 0)))


/-! The ingress event-kind analysis and the heartbeat synthesis analysis. -/

theorem process_central_response_events (cfg : Config) (received : OcppMessage)
    (i : Nat) (now : Int) (st : EngineState) :
    (process_central_response cfg received i now st).events = st.events
    ∨ (process_central_response cfg received i now st).events
        = st.events ++ [(OCPP_EVENT_MESSAGE_FREE, (getMsg st i).body)] := by
  simp only [process_central_response]
  split
  · split
    · left; rfl
    · right; rfl
  · right; rfl

/-- C8 (counterexample): a matched CALLRESULT frame makes the engine invoke
the application callback with event kind 0 (MESSAGE_INCOMING) carrying the
CALLRESULT frame — kind 0 is not reserved for role CALL. -/
theorem callresult_dispatches_event_zero :
    dtResultMsg.role = Role.CALLRESULT
    ∧ dtResultMsg.role ≠ Role.CALL
    ∧ (0, dtResultMsg) ∈ (process_incoming_messages dtResultEnv dtWaitState).2.events := by
  decide

/-- C8 (amended): with a frame received (recv returns 0), the callback is
invoked with kind 0 exactly when the frame is processed successfully: role
CALL, or role CALLRESULT/CALLERROR with a matching Wait slot; the dispatched
kind-0 event carries the received frame.  (The success code 0 doubles as the
MESSAGE_INCOMING event kind in dispatch_event(err, &received).) -/
theorem incoming_event_zero_iff_processed (env : Env) (st : EngineState)
    (h : env.recvErr = 0) :
    ((process_incoming_messages env st).2.events.filter (fun p => p.1 == 0)) =
      st.events.filter (fun p => p.1 == 0) ++
        (if env.recvMsg.role = Role.CALL
            ∨ ((env.recvMsg.role = Role.CALLRESULT ∨ env.recvMsg.role = Role.CALLERROR)
                ∧ (find_msg_by_idstr st st.wait env.recvMsg.id).isSome = true)
         then [(0, env.recvMsg)] else []) := by
  have hne : ¬env.recvErr ≠ 0 := fun hx => hx h
  have hfree0 : (OCPP_EVENT_MESSAGE_FREE == (0 : Int)) = false := by decide
  have h00 : ((0 : Int) == (0 : Int)) = true := by decide
  have hlink0 : ((-ENOLINK : Int) == (0 : Int)) = false := by decide
  have hinv0 : ((-EINVAL : Int) == (0 : Int)) = false := by decide
  have hnm : ¬((0 : Int) = -ENOMSG) := by decide
  have hlinkm : ¬((-ENOLINK : Int) = -ENOMSG) := by decide
  have hlinkp : ¬((0 : Int) ≤ -ENOLINK) := by decide
  have hinvm : ¬((-EINVAL : Int) = -ENOMSG) := by decide
  have hinvp : ¬((0 : Int) ≤ -EINVAL) := by decide
  simp only [process_incoming_messages, if_pos h, if_neg hne]
  cases hR : env.recvMsg.role with
  | CALL =>
      simp [List.filter_append, hnm, h00, update_last_rx_timestamp, dispatch_event]
  | CALLRESULT =>
      cases hf : find_msg_by_idstr st st.wait env.recvMsg.id with
      | none =>
          simp [List.filter_append, hlinkm, hlinkp, hlink0, dispatch_event,
            update_last_rx_timestamp]
      | some i =>
          rcases process_central_response_events env.cfg env.recvMsg i env.now st with
            hE | hE <;>
          simp [List.filter_append, hnm, h00, hfree0, hE, dispatch_event,
            update_last_rx_timestamp, update_last_tx_timestamp]
  | CALLERROR =>
      cases hf : find_msg_by_idstr st st.wait env.recvMsg.id with
      | none =>
          simp [List.filter_append, hlinkm, hlinkp, hlink0, dispatch_event,
            update_last_rx_timestamp]
      | some i =>
          rcases process_central_response_events env.cfg env.recvMsg i env.now st with
            hE | hE <;>
          simp [List.filter_append, hnm, h00, hfree0, hE, dispatch_event,
            update_last_rx_timestamp, update_last_tx_timestamp]
  | NONE =>
      simp [List.filter_append, hinvm, hinvp, hinv0, dispatch_event,
        update_last_rx_timestamp]
  | ALLOC =>
      simp [List.filter_append, hinvm, hinvp, hinv0, dispatch_event,
        update_last_rx_timestamp]

/-- C8 amended-claim witness: the kind-0 law at the concrete CALLRESULT
delivery. -/
theorem incoming_event_zero_iff_processed_witness :
    ((process_incoming_messages dtResultEnv dtWaitState).2.events.filter
        (fun p => p.1 == 0)) =
      dtWaitState.events.filter (fun p => p.1 == 0) ++
        (if dtResultEnv.recvMsg.role = Role.CALL
            ∨ ((dtResultEnv.recvMsg.role = Role.CALLRESULT
                ∨ dtResultEnv.recvMsg.role = Role.CALLERROR)
              ∧ (find_msg_by_idstr dtWaitState dtWaitState.wait
                  dtResultEnv.recvMsg.id).isSome = true)
         then [(0, dtResultEnv.recvMsg)] else []) :=
  incoming_event_zero_iff_processed dtResultEnv dtWaitState rfl


theorem should_send_heartbeat_iff (cfg : Config) (now : Int) (st : EngineState)
    (h0 : 0 ≤ now - st.txTimestamp) (h1 : now - st.txTimestamp < (U32 : Int)) :
    should_send_heartbeat cfg now st = true
    ↔ (cfg.heartbeatInterval ≠ 0
        ∧ (cfg.heartbeatInterval : Int) ≤ now - st.txTimestamp
        ∧ st.ready = [] ∧ st.wait = []) := by
  have hmod : (now - st.txTimestamp) % (U32 : Int) = now - st.txTimestamp :=
    Int.emod_eq_of_lt h0 h1
  simp only [should_send_heartbeat, hmod]
  constructor
  · intro h
    by_cases hcnd : cfg.heartbeatInterval = 0
        ∨ (now - st.txTimestamp).toNat < cfg.heartbeatInterval
        ∨ 0 < count_messages_ready st ∨ 0 < count_messages_waiting st
    · rw [if_pos hcnd] at h
      exact absurd h Bool.false_ne_true
    · push_neg at hcnd
      obtain ⟨ha, hb, hc, hd⟩ := hcnd
      refine ⟨ha, by omega, ?_, ?_⟩
      · exact List.length_eq_zero.mp (Nat.le_zero.mp hc)
      · exact List.length_eq_zero.mp (Nat.le_zero.mp hd)
  · rintro ⟨ha, hb, hc, hd⟩
    have hcnd : ¬(cfg.heartbeatInterval = 0
        ∨ (now - st.txTimestamp).toNat < cfg.heartbeatInterval
        ∨ 0 < count_messages_ready st ∨ 0 < count_messages_waiting st) := by
      push_neg
      refine ⟨ha, by omega, ?_, ?_⟩
      · show st.ready.length ≤ 0
        rw [hc]
        exact le_rfl
      · show st.wait.length ≤ 0
        rw [hd]
        exact le_rfl
    rw [if_neg hcnd]

theorem new_message_none_shape (type : Nat) (gen : List Nat) (st : EngineState)
    (i : Nat) (st1 : EngineState)
    (h : new_message none type false gen st = some (i, st1)) :
    ∃ pl : Nat × Nat, ∃ e : Int,
      st1 = setMsg i
        { body := { id := gen, role := Role.CALL, type := type, payload := pl },
          expiry := e, attempts := 0 } st
      ∧ i < st.pool.length := by
  unfold new_message at h
  cases ha : alloc_message st with
  | none => rw [ha] at h; simp at h
  | some p =>
      rw [ha] at h
      obtain ⟨hA, hlt⟩ := alloc_message_shape st p ha
      simp only [Option.some.injEq, Prod.mk.injEq] at h
      obtain ⟨hi, hst1⟩ := h
      subst hi
      exact ⟨(getMsg p.2 p.1).body.payload, (getMsg p.2 p.1).expiry,
        by rw [← hst1, hA, setMsg_setMsg], hlt⟩

theorem pqm_single_ready (env : Env) (stt : EngineState) (i : Nat)
    (hw : stt.wait = []) (hr : stt.ready = [i]) :
    process_queued_messages env stt = (0, send_message env i stt) := by
  simp only [process_queued_messages]
  have hsweep : process_tx_timeout env.now stt = stt := by
    unfold process_tx_timeout
    rw [hw]
    rfl
  rw [hsweep]
  have hnb : ¬0 < count_messages_waiting stt := by
    show ¬0 < stt.wait.length
    rw [hw]
    simp
  rw [if_neg hnb]
  simp only [hr]

/-- C6 (counterexample): a reachable state in which all four claimed
conditions hold — non-zero HeartbeatInterval, elapsed time beyond it, Ready
empty, Wait empty — and yet no Heartbeat is synthesized, because the pool is
exhausted by deferred Timer entries: process_periodic_messages reports
out-of-memory, leaves the state unchanged, and the full step sends nothing. -/
theorem heartbeat_suppressed_by_pool_exhaustion :
    hbEnv.cfg.heartbeatInterval ≠ 0
    ∧ (hbEnv.cfg.heartbeatInterval : Int) ≤ hbEnv.now - timerFullState.txTimestamp
    ∧ timerFullState.ready = []
    ∧ timerFullState.wait = []
    ∧ should_send_heartbeat hbEnv.cfg hbEnv.now timerFullState = true
    ∧ process_periodic_messages hbEnv timerFullState = (-ENOMEM, timerFullState)
    ∧ (ocpp_step hbEnv timerFullState).sendLog = [] := by
  decide

/-- C6 (amended): during the heartbeat phase a Heartbeat CALL is synthesized
(allocated, pushed to the Ready tail, and immediately sent by the Ready
drain — observable as one new send-log entry of a CALL of type Heartbeat
issued with Wait empty) exactly when the configured HeartbeatInterval is
non-zero, now − last_tx_timestamp ≥ HeartbeatInterval, Ready is empty, Wait
is empty, AND the pool has a free slot; the elapsed-time test reads only
last_tx_timestamp, never last_rx_timestamp. -/
theorem heartbeat_synthesis_condition (env : Env) (st : EngineState)
    (h0 : 0 ≤ env.now - st.txTimestamp)
    (h1 : env.now - st.txTimestamp < (U32 : Int)) :
    ((∃ b : OcppMessage,
        (process_periodic_messages env st).2.sendLog = st.sendLog ++ [(b, 0)]
        ∧ b.type = OCPP_MSG_HEARTBEAT ∧ b.role = Role.CALL)
      ↔ (env.cfg.heartbeatInterval ≠ 0
          ∧ (env.cfg.heartbeatInterval : Int) ≤ env.now - st.txTimestamp
          ∧ st.ready = [] ∧ st.wait = []
          ∧ (alloc_message st).isSome = true))
    ∧ (∀ r : Int, should_send_heartbeat env.cfg env.now { st with rxTimestamp := r }
        = should_send_heartbeat env.cfg env.now st) := by
  refine ⟨⟨?_, ?_⟩, fun r => rfl⟩
  · rintro ⟨b, hlog, hbt, hbr⟩
    by_cases hssh : should_send_heartbeat env.cfg env.now st = true
    · cases hn : new_message none OCPP_MSG_HEARTBEAT false env.genId st with
      | none =>
          exfalso
          have hid : (process_periodic_messages env st).2 = st := by
            simp only [process_periodic_messages]
            rw [if_pos hssh, hn]
          rw [hid] at hlog
          have := congrArg List.length hlog
          simp at this
      | some p =>
          obtain ⟨hc1, hc2, hc3, hc4⟩ :=
            (should_send_heartbeat_iff env.cfg env.now st h0 h1).mp hssh
          refine ⟨hc1, hc2, hc3, hc4, ?_⟩
          unfold new_message at hn
          cases ha : alloc_message st with
          | none => rw [ha] at hn; simp at hn
          | some q => rfl
    · exfalso
      have hid : (process_periodic_messages env st).2 = st := by
        simp only [process_periodic_messages]
        rw [if_neg hssh]
      rw [hid] at hlog
      have := congrArg List.length hlog
      simp at this
  · rintro ⟨hc1, hc2, hc3, hc4, hsome⟩
    have hssh : should_send_heartbeat env.cfg env.now st = true :=
      (should_send_heartbeat_iff env.cfg env.now st h0 h1).mpr ⟨hc1, hc2, hc3, hc4⟩
    cases hn : new_message none OCPP_MSG_HEARTBEAT false env.genId st with
    | none =>
        exfalso
        unfold new_message at hn
        cases ha : alloc_message st with
        | none => rw [ha] at hsome; simp at hsome
        | some q =>
            obtain ⟨qi, qs⟩ := q
            rw [ha] at hn
            simp at hn
    | some p =>
        obtain ⟨i, st1⟩ := p
        obtain ⟨pl, e, hst1, hilt⟩ := new_message_none_shape OCPP_MSG_HEARTBEAT
          env.genId st i st1 hn
        subst hst1
        have hres : (process_periodic_messages env st).2
            = (process_queued_messages env (put_msg_ready i (setMsg i
                { body := { id := env.genId, role := Role.CALL,
                            type := OCPP_MSG_HEARTBEAT, payload := pl },
                  expiry := e, attempts := 0 } st))).2 := by
          simp only [process_periodic_messages]
          rw [if_pos hssh, hn]
        have hw3 : (put_msg_ready i (setMsg i
            { body := { id := env.genId, role := Role.CALL,
                        type := OCPP_MSG_HEARTBEAT, payload := pl },
              expiry := e, attempts := 0 } st)).wait = [] := hc4
        have hr3 : (put_msg_ready i (setMsg i
            { body := { id := env.genId, role := Role.CALL,
                        type := OCPP_MSG_HEARTBEAT, payload := pl },
              expiry := e, attempts := 0 } st)).ready = [i] := by
          show st.ready ++ [i] = [i]
          rw [hc3]
          rfl
        have hpq := pqm_single_ready env (put_msg_ready i (setMsg i
            { body := { id := env.genId, role := Role.CALL,
                        type := OCPP_MSG_HEARTBEAT, payload := pl },
              expiry := e, attempts := 0 } st)) i hw3 hr3
        refine ⟨{ id := env.genId, role := Role.CALL,
                  type := OCPP_MSG_HEARTBEAT, payload := pl }, ?_, rfl, rfl⟩
        rw [hres, hpq]
        show (send_message env i (put_msg_ready i (setMsg i
            { body := { id := env.genId, role := Role.CALL,
                        type := OCPP_MSG_HEARTBEAT, payload := pl },
              expiry := e, attempts := 0 } st))).sendLog
          = st.sendLog ++ [({ id := env.genId, role := Role.CALL,
                              type := OCPP_MSG_HEARTBEAT, payload := pl }, 0)]
        rw [send_message_sendLog]
        have hgm : getMsg (put_msg_ready i (setMsg i
            { body := { id := env.genId, role := Role.CALL,
                        type := OCPP_MSG_HEARTBEAT, payload := pl },
              expiry := e, attempts := 0 } st)) i =
            { body := { id := env.genId, role := Role.CALL,
                        type := OCPP_MSG_HEARTBEAT, payload := pl },
              expiry := e, attempts := 0 } :=
          getMsg_setMsg_self i _ st hilt
        rw [hgm, hw3]
        rfl

/-- C6 witness: the amended heartbeat law applied to a fresh engine at time
100 with HeartbeatInterval 10 (the rx-timestamp independence instantiated at
a concrete rx time). -/
theorem heartbeat_synthesis_condition_witness :
    should_send_heartbeat hbEnv.cfg hbEnv.now { ocpp_init 0 with rxTimestamp := 999 }
      = should_send_heartbeat hbEnv.cfg hbEnv.now (ocpp_init 0) :=
  (heartbeat_synthesis_condition hbEnv (ocpp_init 0) (by decide) (by decide)).2 999

end Ocpp
